import Mathlib

/-!
Verification development for the bacnet-mqtt-gateway repository.

The development shallowly embeds the parts of the gateway that the checked
properties are about:

* a JSON value model with compact and pretty (4-space indent) rendering,
  modelling the library calls `JSON.stringify(v)` and `JSON.stringify(v, null, 4)`;
* a model of JavaScript runtime values (`JsVal`) with the coercions the
  server code uses (`parseInt`, numeric comparison, truthiness, `toString`,
  template-literal stringification);
* the MQTT topic bridge (publish path and inbound command decoding),
  modelled from the specification because `src/mqtt_client.js` itself is not
  part of the provided sources (only its unit tests are);
* the device-configuration store (`bacnet_config.js`): load, save, delete,
  over an association-list file-system model;
* the BACnet transport scan path, modelled from the specification because
  `src/bacnet_client.js` is not part of the provided sources;
* the HTTP server handlers `_writeProperty` and `_configurePolling` from
  `src/server.js`, embedded as pure functions from a request-body model to
  an outcome (bad request / not found / transport call / applied).
-/

/-! ## JSON value model -/

/-- JSON values as produced by `JSON.parse` and consumed by `JSON.stringify`.
Numbers are modelled as integers, which covers every value the checked
properties touch. -/
inductive Json where
  | null : Json
  | bool (b : Bool) : Json
  | num (n : Int) : Json
  | str (s : String) : Json
  | arr (elems : List Json) : Json
  | obj (fields : List (String × Json)) : Json

/-- Escape of a single character inside a JSON string literal, as
`JSON.stringify` performs it (common escapes; exotic control characters are
not needed by any checked property). -/
def jsonEscapeChar (c : Char) : String :=
  if c = '"' then "\\\""
  else if c = '\\' then "\\\\"
  else if c = '\n' then "\\n"
  else if c = '\t' then "\\t"
  else if c = '\r' then "\\r"
  else String.singleton c

/-- Rendering of a JSON string literal with surrounding quotes. -/
def jsonRenderString (s : String) : String :=
  "\"" ++ String.join (s.data.map jsonEscapeChar) ++ "\""

mutual

/-- Compact rendering, modelling `JSON.stringify(v)` (no space argument). -/
def Json.render : Json → String
  | .null => "null"
  | .bool b => if b then "true" else "false"
  | .num n => toString n
  | .str s => jsonRenderString s
  | .arr elems => "[" ++ Json.renderElems elems ++ "]"
  | .obj fields => "\x7b" ++ Json.renderFields fields ++ "\x7d"

/-- Comma-joined compact rendering of array elements. -/
def Json.renderElems : List Json → String
  | [] => ""
  | [x] => Json.render x
  | x :: xs => Json.render x ++ "," ++ Json.renderElems xs

/-- Comma-joined compact rendering of object fields. -/
def Json.renderFields : List (String × Json) → String
  | [] => ""
  | [(k, v)] => jsonRenderString k ++ ":" ++ Json.render v
  | (k, v) :: xs => jsonRenderString k ++ ":" ++ Json.render v ++ "," ++ Json.renderFields xs

end

/-- Indentation of `4 * d` spaces used by `JSON.stringify(v, null, 4)`. -/
def jsonIndent (d : Nat) : String :=
  String.mk (List.replicate (4 * d) ' ')

mutual

/-- Pretty rendering at nesting depth `d`, modelling `JSON.stringify(v, null, 4)`. -/
def Json.renderPretty (d : Nat) : Json → String
  | .null => "null"
  | .bool b => if b then "true" else "false"
  | .num n => toString n
  | .str s => jsonRenderString s
  | .arr [] => "[]"
  | .arr (x :: xs) =>
      "[\n" ++ jsonIndent (d + 1) ++ Json.renderPretty (d + 1) x
        ++ Json.renderPrettyElems (d + 1) xs ++ "\n" ++ jsonIndent d ++ "]"
  | .obj [] => "\x7b\x7d"
  | .obj ((k, v) :: xs) =>
      "\x7b\n" ++ jsonIndent (d + 1) ++ jsonRenderString k ++ ": " ++ Json.renderPretty (d + 1) v
        ++ Json.renderPrettyFields (d + 1) xs ++ "\n" ++ jsonIndent d ++ "\x7d"

/-- Remaining array elements in pretty rendering, each on its own line. -/
def Json.renderPrettyElems (d : Nat) : List Json → String
  | [] => ""
  | x :: xs => ",\n" ++ jsonIndent d ++ Json.renderPretty d x ++ Json.renderPrettyElems d xs

/-- Remaining object fields in pretty rendering, each on its own line. -/
def Json.renderPrettyFields (d : Nat) : List (String × Json) → String
  | [] => ""
  | (k, v) :: xs =>
      ",\n" ++ jsonIndent d ++ jsonRenderString k ++ ": " ++ Json.renderPretty d v
        ++ Json.renderPrettyFields d xs

end

mutual

/-- JavaScript template-literal stringification of a JSON value, as in
backtick-interpolation of a parsed value: numbers and strings verbatim,
`null`, booleans, arrays joined by commas, plain objects as
`[object Object]`. -/
def jsonTemplate : Json → String
  | .null => "null"
  | .bool b => if b then "true" else "false"
  | .num n => toString n
  | .str s => s
  | .arr xs => jsonTemplateList xs
  | .obj _ => "[object Object]"

/-- `Array.prototype.toString`: elements joined with commas. -/
def jsonTemplateList : List Json → String
  | [] => ""
  | [x] => jsonTemplate x
  | x :: xs => jsonTemplate x ++ "," ++ jsonTemplateList xs

end

/-- Property access `v[k]` on a parsed JSON value when `v` is known not to be
`null`/`undefined`: an object yields the field (or `undefined`, modelled as
`none`); any other value yields `undefined`. -/
def jsProp (v : Json) (k : String) : Option Json :=
  match v with
  | .obj fields => (fields.find? fun f => f.1 == k).map (fun f => f.2)
  | _ => none

/-! ## JavaScript runtime values

`src/server.js` receives request bodies parsed by `body-parser`; individual
fields are JavaScript values. `JsVal` models the value kinds the handlers
distinguish; an absent field (`undefined`) is modelled as `Option.none` at
the use site. -/

/-- A JavaScript runtime value: number (integral, which covers every checked
property), string, boolean, `null`, or a non-null object (opaque — the
handlers only test `typeof v === 'object'` on it). -/
inductive JsVal where
  | num (n : Int) : JsVal
  | str (s : String) : JsVal
  | boolV (b : Bool) : JsVal
  | nullV : JsVal
  | objV : JsVal
deriving DecidableEq

/-- Whether `typeof v === 'object' && v !== null` holds: true exactly for
non-null objects. -/
def isNonNullObject : JsVal → Bool
  | .objV => true
  | _ => false

/-- JavaScript truthiness: `0`, the empty string, `false` and `null` are
falsy; everything else is truthy. -/
def jsTruthy : JsVal → Bool
  | .num n => n != 0
  | .str s => s != ""
  | .boolV b => b
  | .nullV => false
  | .objV => true

/-- Decimal digit test. -/
def isDigitChar (c : Char) : Bool :=
  '0' ≤ c && c ≤ '9'

/-- Numeric value of a list of decimal digit characters, accumulating left to
right. -/
def digitsToNat : Nat → List Char → Nat
  | acc, [] => acc
  | acc, c :: cs => digitsToNat (acc * 10 + (c.toNat - '0'.toNat)) cs

/-- `parseInt(s, 10)` on a string: optional sign, then leading decimal
digits; `NaN` (modelled `none`) when no digit is found. Leading whitespace
and non-digit tails are beyond what any checked property needs. -/
def parseIntChars : List Char → Option Int
  | [] => none
  | '-' :: cs =>
      let ds := cs.takeWhile isDigitChar
      if ds.isEmpty then none else some (-(digitsToNat 0 ds : Int))
  | cs =>
      let ds := cs.takeWhile isDigitChar
      if ds.isEmpty then none else some ((digitsToNat 0 ds : Int))

/-- `parseInt(v, 10)` on a JavaScript value (the value is stringified
first): numbers parse to themselves, strings by `parseIntChars`, and
booleans, `null` and objects stringify to text without a leading digit, so
they give `NaN`. -/
def jsParseInt : JsVal → Option Int
  | .num n => some n
  | .str s => parseIntChars s.data
  | .boolV _ => none
  | .nullV => none
  | .objV => none

/-- `Number(v)` coercion used by the relational operators: `none` models
`NaN`. The empty string coerces to `0`; a signed all-digit string to its
value; other strings and plain objects to `NaN`; `null` to `0`; booleans to
`0`/`1`. -/
def jsToNumber : JsVal → Option Int
  | .num n => some n
  | .str s =>
      match s.data with
      | [] => some 0
      | '-' :: cs => if cs ≠ [] && cs.all isDigitChar then some (-(digitsToNat 0 cs : Int)) else none
      | cs => if cs.all isDigitChar then some ((digitsToNat 0 cs : Int)) else none
  | .boolV b => some (if b then 1 else 0)
  | .nullV => some 0
  | .objV => none

/-- JavaScript `v < k` for an integer literal `k`: numeric coercion of `v`;
any comparison against `NaN` is false. -/
def jsLtNum (v : JsVal) (k : Int) : Bool :=
  match jsToNumber v with
  | none => false
  | some n => n < k

/-- JavaScript `v > k` for an integer literal `k`. -/
def jsGtNum (v : JsVal) (k : Int) : Bool :=
  match jsToNumber v with
  | none => false
  | some n => k < n

/-- Template-literal stringification of a JavaScript value
(interpolation inside a template string): `null` renders as `"null"`. -/
def jsTemplate : JsVal → String
  | .num n => toString n
  | .str s => s
  | .boolV b => if b then "true" else "false"
  | .nullV => "null"
  | .objV => "[object Object]"

/-- `v.toString()`: like the template literal, except that calling a method
on `null` throws a `TypeError`, modelled as `none`. -/
def jsToStringOpt : JsVal → Option String
  | .nullV => none
  | v => some (jsTemplate v)

/-! ## Character-list splitting

`mqtt_client.js` decodes inbound topics with `topic.split('/')` and
`objectKey.split('_')`. Topics are modelled as `List Char` and the split as
a recursive function mirroring JavaScript `String.prototype.split` with a
single-character separator. -/

/-- `String.prototype.split` with a one-character separator: always returns
at least one (possibly empty) segment, and `n` separators produce `n + 1`
segments. -/
def splitOnChar (sep : Char) : List Char → List (List Char)
  | [] => [[]]
  | c :: cs =>
      if c = sep then
        [] :: splitOnChar sep cs
      else
        match splitOnChar sep cs with
        | [] => [[c]]
        | s :: rest => (c :: s) :: rest

/-! ## TopicBridge (MqttClient)

`src/mqtt_client.js` is not among the provided sources; only its unit tests
are (`__tests__/mqtt_client.test.js`). The publish and decode paths are
therefore modelled from the specification, and the model is checked against
the concrete inputs and outputs fixed by those unit tests. -/

/-- A single call to the underlying `client.publish(topic, payload, opts)`. -/
structure PublishCall where
  topic : String
  payload : String
  retain : Bool
deriving DecidableEq

/-- Modelled from the spec: the fixed lookup table deriving the Home
Assistant `componentType` from a BACnet object-type code — analog object
kinds (codes 0–2) map to `sensor`, binary kinds (codes 3–5) to
`binary_sensor`; the unit test fixes code 2 to `sensor`. -/
def componentType (objType : Nat) : String :=
  if objType ≤ 2 then "sensor"
  else if objType ≤ 5 then "binary_sensor"
  else "sensor"

/-- Object-type code of an object key such as `2_202`: the decimal prefix
before the underscore. -/
def objKeyTypeCode (key : String) : Nat :=
  digitsToNat 0 (key.data.takeWhile isDigitChar)

/-- Modelled from the spec: `MqttClient.publishMessage(values)` — for each
entry of the mapping that carries a present value, one retained publish of
the JSON-encoded value to
`homeassistant/<componentType>/<gatewayId>/<objectKey>/state`; entries
without a value, and the empty mapping, publish nothing. An entry is a pair
of the object key and the optional present value. -/
def publishMessage (gatewayId : String) (values : List (String × Option Json)) :
    List PublishCall :=
  values.filterMap fun entry =>
    match entry.2 with
    | none => none
    | some v =>
        some { topic := "homeassistant/" ++ componentType (objKeyTypeCode entry.1) ++ "/"
                 ++ gatewayId ++ "/" ++ entry.1 ++ "/state"
               payload := Json.render v
               retain := true }

/-- The payload of a well-formed inbound command message after JSON parsing:
a `value`, an optional `priority` and an optional `bacnetApplicationTag`.
A malformed payload (unparseable JSON or missing `value`) is modelled as
`Option.none` at the use site. -/
structure MsgPayload where
  value : Json
  priority : Option Int
  bacnetApplicationTag : Option Int

/-- The normalized write command the bridge re-emits to the orchestrator
(the shape fixed by the `bacnetWriteCommand` unit test). -/
structure WriteCommand where
  deviceId : List Char
  objectKey : List Char
  objectType : Nat
  objectInstance : Nat
  propertyId : Nat
  value : Json
  priority : Option Int
  bacnetApplicationTag : Option Int

/-- Parse of a list of decimal digits into a `Nat`; `none` when empty or
containing a non-digit (the model of `parseInt` on the topic segments,
which are non-negative). -/
def parseNatChars (cs : List Char) : Option Nat :=
  if cs ≠ [] && cs.all isDigitChar then some (digitsToNat 0 cs) else none

/-- Modelled from the spec: `MqttClient.onMessage(topic, payload)` — matches
topics of shape `bacnetwrite/<gatewayId>/<deviceId>/<objectKey>/<propertyId>/set`;
messages whose gateway segment differs from the local gateway id are
silently ignored; the object key decomposes as
`objectType_objectInstance`; a well-formed message is re-emitted as a
normalized `WriteCommand`, and any malformed topic or payload is dropped
(`none`). -/
def onMessage (localGatewayId : List Char) (topic : List Char)
    (payload : Option MsgPayload) : Option WriteCommand :=
  match splitOnChar '/' topic with
  | [proto, gid, did, objKey, propIdSeg, action] =>
      if proto = "bacnetwrite".data ∧ action = "set".data then
        if gid = localGatewayId then
          match splitOnChar '_' objKey, payload with
          | [otSeg, oiSeg], some p =>
              match parseNatChars otSeg, parseNatChars oiSeg, parseNatChars propIdSeg with
              | some ot, some oi, some pid =>
                  some { deviceId := did
                         objectKey := objKey
                         objectType := ot
                         objectInstance := oi
                         propertyId := pid
                         value := p.value
                         priority := p.priority
                         bacnetApplicationTag := p.bacnetApplicationTag }
              | _, _, _ => none
          | _, _ => none
        else none
      else none
  | _ => none

/-- Topic of the shape the command subscription matches, assembled from its
five variable segments. -/
def mkWriteTopic (gid did objKey propIdSeg : List Char) : List Char :=
  "bacnetwrite".data ++ '/' :: (gid ++ '/' :: (did ++ '/' :: (objKey ++ '/' :: (propIdSeg ++ '/' :: "set".data))))

/-! ## ConfigStore (BacnetConfig)

Embedded from `src/bacnet_config.js`. The configuration directory is
modelled as an association list from filename to file content; the library
call `JSON.parse` is modelled by the file content being either a parseable
JSON document or malformed. -/

/-- Content of a configuration file as seen through `JSON.parse`: either it
parses to a document or parsing throws. -/
inductive FileContent where
  | parses (cfg : Json) : FileContent
  | malformed : FileContent

/-- Observable outcome of `BacnetConfig.load` for one directory entry:
a deactivated file (name starting with `_`) is skipped with an info log,
a parseable file is emitted as a `configLoaded` event, and a parse failure
is logged as an error for that file only. -/
inductive LoadEvent where
  | skippedDeactivated (file : String) : LoadEvent
  | configLoaded (cfg : Json) : LoadEvent
  | parseError (file : String) : LoadEvent

/-- The naming convention flagging a deactivated configuration file:
`file.startsWith('_')`, i.e. the first character is an underscore. -/
def isDeactivatedName (name : String) : Bool :=
  match name.data with
  | '_' :: _ => true
  | _ => false

/-- `BacnetConfig.load`: every directory entry is processed independently in
order; no outcome for one file affects the others. -/
def bacnetConfigLoad (files : List (String × FileContent)) : List LoadEvent :=
  files.map fun entry =>
    if isDeactivatedName entry.1 then
      .skippedDeactivated entry.1
    else
      match entry.2 with
      | .parses cfg => .configLoaded cfg
      | .malformed => .parseError entry.1

/-- The documents carried by the `configLoaded` events of a load. -/
def emittedConfigs (events : List LoadEvent) : List Json :=
  events.filterMap fun e =>
    match e with
    | .configLoaded cfg => some cfg
    | _ => none

/-- The number of parse errors logged by a load. -/
def parseErrorCount (events : List LoadEvent) : Nat :=
  (events.filter fun e =>
    match e with
    | .parseError _ => true
    | _ => false).length

/-- The configuration directory: filenames mapped to file contents, one
entry per filename. -/
abbrev FileSystem := List (String × String)

/-- Content of a named file, if present. -/
def lookupFile (fs : FileSystem) (name : String) : Option String :=
  (fs.find? fun p => p.1 == name).map fun p => p.2

/-- Writing a file: `fs.writeFile` replaces any previous file of the same
name. -/
def setFile (fs : FileSystem) (name content : String) : FileSystem :=
  (name, content) :: fs.filter fun p => p.1 != name

/-- Removing a file: `fs.unlink`. -/
def removeFile (fs : FileSystem) (name : String) : FileSystem :=
  fs.filter fun p => p.1 != name

/-- Number of directory entries carrying the given name. -/
def fileCount (fs : FileSystem) (name : String) : Nat :=
  (fs.filter fun p => p.1 == name).length

/-- The deviceId-derived filename `device.<deviceId>.json` used by both
`save` and `delete`. -/
def configFileName (idStr : String) : String :=
  "device." ++ idStr ++ ".json"

/-- `BacnetConfig.save(deviceConfig)`: writes
`JSON.stringify(deviceConfig, null, 4)` to `device.<deviceId>.json`, the
device id being read from `deviceConfig.device.deviceId` and stringified by
the template literal. Reading a property of `null`/`undefined` throws in
JavaScript, modelled as `none`. -/
def bacnetConfigSave (fs : FileSystem) (deviceConfig : Json) : Option FileSystem :=
  match deviceConfig with
  | .null => none
  | _ =>
      match jsProp deviceConfig "device" with
      | none => none
      | some .null => none
      | some dev =>
          some (setFile fs
            (configFileName
              (match jsProp dev "deviceId" with
               | none => "undefined"
               | some v => jsonTemplate v))
            (Json.renderPretty 0 deviceConfig))

/-- Failure mode of `BacnetConfig.delete`: the `ENOENT` rejection from
`fs.unlink` when the file does not exist. -/
inductive DeleteError where
  | notFound : DeleteError
deriving DecidableEq

/-- `BacnetConfig.delete(deviceId)`: unlinks `device.<deviceId>.json` and
resolves with the new directory state; when no such file exists, `fs.unlink`
reports `ENOENT` and the promise rejects, modelled as `DeleteError.notFound`. -/
def bacnetConfigDelete (fs : FileSystem) (deviceId : JsVal) :
    Except DeleteError FileSystem :=
  let name := configFileName (jsTemplate deviceId)
  if (lookupFile fs name).isSome then
    .ok (removeFile fs name)
  else
    .error .notFound

/-! ## FieldTransport (BacnetClient) scan path

`src/bacnet_client.js` is not among the provided sources; only its unit
test is (`__tests__/bacnet_client.test.js`). The scan path is modelled from
the specification: object-list enumeration issues a single batched read and
fails fast, surfacing the raw driver error. -/

/-- A device handle as passed to `scanDevice`: network address and device
id. -/
structure BacnetDevice where
  address : String
  deviceId : Nat
deriving DecidableEq

/-- An object identifier plus name, as returned by object enumeration. -/
structure ScannedObject where
  objType : Nat
  objInstance : Nat
  name : String
deriving DecidableEq

/-- A driver error: the underlying error with its message. -/
structure DriverError where
  message : String
deriving DecidableEq

/-- Modelled from the spec: `BacnetClient.scanDevice(device)` — issues a
single batched read of the device's object list through the driver and
either resolves with the enumerated objects or rejects with the underlying
driver error unchanged; it performs no internal retry. The driver is
modelled as the list of responses successive calls would return, and the
result is paired with the number of driver calls actually issued. -/
def scanDevice (_device : BacnetDevice)
    (driverResponses : List (Except DriverError (List ScannedObject))) :
    Except DriverError (List ScannedObject) × Nat :=
  match driverResponses with
  | [] => (.error { message := "ERR_TIMEOUT" }, 0)
  | .error e :: _ => (.error e, 1)
  | .ok objects :: _ => (.ok objects, 1)

/-! ## Server handlers

Embedded from `src/server.js`. Each handler is a pure function from the
request-body model to the observable outcome; the outcome constructor
records whether, and with which arguments, the downstream collaborator
(`bacnetClient.writeProperty`, `saveConfig`/`startPolling`) is invoked. -/

/-- Request body of `PUT /api/bacnet/write` (`Server._writeProperty`):
each field is `none` when absent (`undefined`). -/
structure WriteBody where
  deviceId : Option JsVal
  objectType : Option JsVal
  objectInstance : Option JsVal
  propertyId : Option JsVal
  value : Option JsVal
  priority : Option JsVal
  bacnetApplicationTag : Option JsVal

/-- The `device` section of a stored device configuration, as far as
`_writeProperty` inspects it: its `address` field (possibly absent). -/
structure StoredDeviceSection where
  address : Option JsVal

/-- A stored device configuration: its `device` section (possibly absent). -/
structure StoredDeviceConfig where
  device : Option StoredDeviceSection

/-- Lookup in the `deviceConfigs` map (keys are strings). -/
def lookupDeviceConfig (configs : List (String × StoredDeviceConfig)) (key : String) :
    Option StoredDeviceConfig :=
  (configs.find? fun p => p.1 == key).map fun p => p.2

/-- The guard `!deviceConfig || !deviceConfig.device || !deviceConfig.device.address`:
the usable address of a stored configuration, or `none` when the guard
fires (missing section, missing address, or falsy address). -/
def storedAddress (cfg : StoredDeviceConfig) : Option JsVal :=
  match cfg.device with
  | none => none
  | some d =>
      match d.address with
      | none => none
      | some a => if jsTruthy a then some a else none

/-- The first priority guard of `_writeProperty`:
`priority !== undefined && (isNaN(parseInt(priority, 10)) || priority < 1 || priority > 16)`. -/
def priorityCheckFails (p : Option JsVal) : Bool :=
  match p with
  | none => false
  | some v => (jsParseInt v).isNone || jsLtNum v 1 || jsGtNum v 16

/-- The first application-tag guard of `_writeProperty`:
`bacnetApplicationTag !== undefined && isNaN(parseInt(bacnetApplicationTag, 10))`. -/
def appTagCheckFails (t : Option JsVal) : Bool :=
  match t with
  | none => false
  | some v => (jsParseInt v).isNone

/-- The second priority guard, applied to the already-parsed
`priorityToUse`: `none` when `priority` was absent, `some none` models a
`NaN` parse. -/
def parsedPriorityFails (p : Option (Option Int)) : Bool :=
  match p with
  | none => false
  | some none => true
  | some (some n) => n < 1 || 16 < n

/-- Observable outcome of `Server._writeProperty`. `transportCall` is the
only outcome that invokes `bacnetClient.writeProperty`. `thrown` models a
synchronous `TypeError` escaping the handler (calling `.toString()` on
`null`). -/
inductive WriteOutcome where
  | badRequest (message : String) : WriteOutcome
  | notFound (message : String) : WriteOutcome
  | transportCall (address : JsVal) (objType objInstance propId : Int)
      (value : JsVal) (priority appTag : Option Int) : WriteOutcome
  | thrown : WriteOutcome

/-- `Server._writeProperty`, embedded check for check in source order. -/
def handleWriteProperty (configs : List (String × StoredDeviceConfig))
    (b : WriteBody) : WriteOutcome :=
  match b.deviceId, b.objectType, b.objectInstance, b.propertyId, b.value with
  | some deviceId, some objectType, some objectInstance, some propertyId, some value =>
      if isNonNullObject value then
        .badRequest "value must be a primitive type (string/number/boolean)."
      else if priorityCheckFails b.priority then
        .badRequest "priority must be a number between 1 and 16."
      else if appTagCheckFails b.bacnetApplicationTag then
        .badRequest "bacnetApplicationTag must be numeric if provided."
      else
        match jsToStringOpt deviceId with
        | none => .thrown
        | some key =>
            match lookupDeviceConfig configs key with
            | none =>
                .notFound ("Device configuration not found for deviceId: " ++ jsTemplate deviceId)
            | some cfg =>
                match storedAddress cfg with
                | none =>
                    .notFound ("Device configuration not found for deviceId: " ++ jsTemplate deviceId)
                | some deviceAddress =>
                    let priorityToUse := b.priority.map jsParseInt
                    let appTagToUse := b.bacnetApplicationTag.map jsParseInt
                    match jsParseInt objectType, jsParseInt objectInstance, jsParseInt propertyId with
                    | some otN, some oiN, some pidN =>
                        if parsedPriorityFails priorityToUse then
                          .badRequest "priority must be a number between 1 and 16."
                        else if (match appTagToUse with
                                 | some none => true
                                 | _ => false) then
                          .badRequest "bacnetApplicationTag must be a number."
                        else
                          .transportCall deviceAddress otN oiN pidN value
                            (priorityToUse.bind id) (appTagToUse.bind id)
                    | _, _, _ =>
                        .badRequest "objectType, objectInstance, and propertyId must be numbers."
  | _, _, _, _, _ =>
      .badRequest "Missing required fields: deviceId, objectType, objectInstance, propertyId, value"

/-- The `objectId` field of one entry of the `objects` array of a polling
configuration request. -/
structure ObjectIdField where
  type : Option JsVal
  inst : Option JsVal

/-- One entry of the `objects` array as far as `_configurePolling` inspects
it: its `objectId` field. A falsy entry (the `!obj` guard) is modelled as
`Option.none` at the use site. -/
structure ObjEntryFields where
  objectId : Option ObjectIdField

/-- The `objects` field of the request body: either an array
(`Array.isArray` succeeds) or any other value. -/
inductive ObjectsField where
  | arr (entries : List (Option ObjEntryFields)) : ObjectsField
  | nonArray : ObjectsField

/-- The `device` section of the request body of `PUT /api/bacnet/:deviceId/config`. -/
structure ConfigDeviceField where
  deviceId : Option JsVal
  address : Option JsVal

/-- The `polling` section of the request body. -/
structure ConfigPollingField where
  schedule : Option JsVal

/-- Request body of `PUT /api/bacnet/:deviceId/config`
(`Server._configurePolling`); the body itself may be `null`
(the `!config` guard), modelled as `Option.none` at the use site. -/
structure ConfigureBody where
  device : Option ConfigDeviceField
  polling : Option ConfigPollingField
  objects : Option ObjectsField

/-- The first validation rule:
`!config || !config.device || config.device.deviceId === undefined || !config.device.address`. -/
def deviceRuleFails (c : Option ConfigureBody) : Bool :=
  match c with
  | none => true
  | some cb =>
      match cb.device with
      | none => true
      | some d =>
          d.deviceId.isNone ||
            (match d.address with
             | none => true
             | some a => !jsTruthy a)

/-- The second validation rule: `!config || !config.polling || !config.polling.schedule`. -/
def scheduleRuleFails (c : Option ConfigureBody) : Bool :=
  match c with
  | none => true
  | some cb =>
      match cb.polling with
      | none => true
      | some p =>
          match p.schedule with
          | none => true
          | some s => !jsTruthy s

/-- The third validation rule:
`!config || !Array.isArray(config.objects) || config.objects.length === 0`. -/
def objectsRuleFails (c : Option ConfigureBody) : Bool :=
  match c with
  | none => true
  | some cb =>
      match cb.objects with
      | some (.arr entries) => entries.isEmpty
      | _ => true

/-- The per-entry validation rule:
`!obj || !obj.objectId || obj.objectId.type === undefined || obj.objectId.instance === undefined`. -/
def entryRuleFails (e : Option ObjEntryFields) : Bool :=
  match e with
  | none => true
  | some f =>
      match f.objectId with
      | none => true
      | some oid => oid.type.isNone || oid.inst.isNone

/-- The message pushed for the first rule. -/
def deviceRuleMsg : String := "device.deviceId and device.address are required."

/-- The message pushed for the second rule. -/
def scheduleRuleMsg : String := "polling.schedule is required."

/-- The message pushed for the third rule. -/
def objectsRuleMsg : String := "objects must be a non-empty array."

/-- The message pushed for a failing entry at index `idx`. -/
def entryRuleMsg (idx : Nat) : String :=
  "objects[" ++ toString idx ++ "].objectId.type and objectId.instance are required."

/-- The `validationErrors` array of `Server._configurePolling`, in push
order: the three top-level rules, then — only when `objects` is a non-empty
array — one message per violating entry, indexed by `forEach` position. -/
def configureValidationErrors (c : Option ConfigureBody) : List String :=
  (if deviceRuleFails c then [deviceRuleMsg] else [])
    ++ (if scheduleRuleFails c then [scheduleRuleMsg] else [])
    ++ (match c with
        | none => [objectsRuleMsg]
        | some cb =>
            match cb.objects with
            | some (.arr entries) =>
                if entries.isEmpty then [objectsRuleMsg]
                else
                  entries.enum.filterMap fun p =>
                    if entryRuleFails p.2 then some (entryRuleMsg p.1) else none
            | _ => [objectsRuleMsg])

/-- Observable outcome of `Server._configurePolling`. `applied` is the only
outcome that invokes `saveConfig` and `startPolling` (in that order);
`badRequest` carries the full `validationErrors` list of the 400 response. -/
inductive ConfigureOutcome where
  | badRequest (details : List String) : ConfigureOutcome
  | applied (cfg : ConfigureBody) : ConfigureOutcome
  | serverError : ConfigureOutcome

/-- `Server._configurePolling`: validates the whole body first and answers
400 with every collected message when any rule fails; only an error-free
body reaches `saveConfig`/`startPolling`. -/
def handleConfigurePolling (c : Option ConfigureBody) : ConfigureOutcome :=
  let errs := configureValidationErrors c
  if errs.isEmpty then
    match c with
    | some cb => .applied cb
    | none => .serverError
  else
    .badRequest errs

/-- Entry of the `objects` array at a given index, when the body carries an
array there. -/
def objectEntryAt (c : Option ConfigureBody) (i : Nat) : Option (Option ObjEntryFields) :=
  match c with
  | some cb =>
      match cb.objects with
      | some (.arr entries) => entries.get? i
      | _ => none
  | none => none

/-! ## Helper lemmas -/

/-- Splitting a separator-free list yields the single segment. -/
theorem splitOnChar_no_sep (sep : Char) :
    ∀ xs : List Char, sep ∉ xs → splitOnChar sep xs = [xs] := by
  intro xs
  induction xs with
  | nil => intro _; rfl
  | cons c cs ih =>
      intro h
      have hc : c ≠ sep := fun hEq => h (hEq ▸ List.mem_cons_self c cs)
      have hcs : sep ∉ cs := fun hm => h (List.mem_cons_of_mem c hm)
      simp [splitOnChar, hc, ih hcs]

/-- Splitting at the first separator: a separator-free head segment is
peeled off. -/
theorem splitOnChar_append_sep (sep : Char) :
    ∀ xs ys : List Char, sep ∉ xs →
      splitOnChar sep (xs ++ sep :: ys) = xs :: splitOnChar sep ys := by
  intro xs
  induction xs with
  | nil => intro ys _; simp [splitOnChar]
  | cons c cs ih =>
      intro ys h
      have hc : c ≠ sep := fun hEq => h (hEq ▸ List.mem_cons_self c cs)
      have hcs : sep ∉ cs := fun hm => h (List.mem_cons_of_mem c hm)
      have := ih ys hcs
      simp [splitOnChar, hc, this]

/-- Looking up a freshly written file yields the written content. -/
theorem lookupFile_setFile_self (fs : FileSystem) (n c : String) :
    lookupFile (setFile fs n c) n = some c := by
  simp [lookupFile, setFile, List.find?]

/-- No entry survives filtering first for a different name and then for the
name itself. -/
theorem filter_name_of_filter_ne (fs : FileSystem) (n : String) :
    (List.filter (fun p => p.1 == n) (List.filter (fun p => p.1 != n) fs)) = [] := by
  rw [List.filter_filter]
  apply List.filter_eq_nil_iff.mpr
  intro a _
  by_cases h : a.1 = n <;> simp [h]

/-- A freshly written file is the unique directory entry of its name. -/
theorem fileCount_setFile_self (fs : FileSystem) (n c : String) :
    fileCount (setFile fs n c) n = 1 := by
  simp [fileCount, setFile, List.filter, filter_name_of_filter_ne]

/-- After removal, no entry of the removed name remains. -/
theorem lookupFile_removeFile_self (fs : FileSystem) (n : String) :
    lookupFile (removeFile fs n) n = none := by
  have hfind : (List.find? (fun p => p.1 == n) (removeFile fs n)) = none := by
    apply List.find?_eq_none.mpr
    intro x hx
    have hkeep := List.of_mem_filter hx
    simp only [bne_iff_ne, ne_eq] at hkeep
    simp [hkeep]
  simp [lookupFile, hfind]

/-- Removal of one name leaves every other name's lookup unchanged. -/
theorem lookupFile_removeFile_ne (fs : FileSystem) (n m : String) (h : n ≠ m) :
    lookupFile (removeFile fs m) n = lookupFile fs n := by
  induction fs with
  | nil => rfl
  | cons a t ih =>
      simp only [removeFile, List.filter_cons] at ih ⊢
      by_cases ha : a.1 = m
      · have han : ¬((fun p : String × String => p.1 == n) a = true) := by
          simp [ha]
          exact fun hEq => h hEq.symm
        rw [if_neg (by simp [ha])]
        unfold lookupFile
        rw [@List.find?_cons_of_neg _ (fun p => p.1 == n) a t han]
        exact ih
      · rw [if_pos (by simp [ha])]
        by_cases han : a.1 = n
        · unfold lookupFile
          rw [@List.find?_cons_of_pos _ (fun p => p.1 == n) a
                (List.filter (fun p => p.1 != m) t) (by simp [han]),
              @List.find?_cons_of_pos _ (fun p => p.1 == n) a t (by simp [han])]
        · unfold lookupFile
          rw [@List.find?_cons_of_neg _ (fun p => p.1 == n) a
                (List.filter (fun p => p.1 != m) t) (by simp [han]),
              @List.find?_cons_of_neg _ (fun p => p.1 == n) a t (by simp [han])]
          exact ih

/-- Every successful index lookup appears in the enumeration from `k`. -/
theorem mem_enumFrom_of_get? {α : Type} :
    ∀ (xs : List α) (k i : Nat) (e : α), xs.get? i = some e → (k + i, e) ∈ xs.enumFrom k := by
  intro xs
  induction xs with
  | nil => intro k i e h; simp [List.get?] at h
  | cons a t ih =>
      intro k i e h
      cases i with
      | zero =>
          simp [List.get?] at h
          subst h
          simp [List.enumFrom]
      | succ j =>
          simp only [List.get?] at h
          have := ih (k + 1) j e h
          have harith : k + (j + 1) = k + 1 + j := by omega
          simp [List.enumFrom, harith]
          right
          exact this

/-- Every successful index lookup appears in the enumeration. -/
theorem mem_enum_of_get? {α : Type} (xs : List α) (i : Nat) (e : α)
    (h : xs.get? i = some e) : (i, e) ∈ xs.enum := by
  have := mem_enumFrom_of_get? xs 0 i e h
  simpa [List.enum] using this

/-! ## Claim theorems -/

/-- C1: for a bridge whose gateway id is `test-gw`, publishing the
single-entry mapping mapping `2_202` to present value `42` produces exactly
one publish call, to `homeassistant/sensor/test-gw/2_202/state`, with the
retained-message flag set and payload `"42"`, the JSON encoding of `42`. -/
theorem publishMessage_single_retained_call :
    publishMessage "test-gw" [("2_202", some (Json.num 42))] =
      [{ topic := "homeassistant/sensor/test-gw/2_202/state"
         payload := "42"
         retain := true }] := by
  rfl

/-- C4: publishing the empty mapping never invokes the underlying publish
call, for every gateway id. -/
theorem publishMessage_empty_no_call (gatewayId : String) :
    publishMessage gatewayId [] = [] := rfl

/-- C6: object-list enumeration performs no internal retry — whenever the
first (and only) driver call reports an error, `scanDevice` rejects with
that very error, whatever responses later calls would have returned, and
issues exactly one driver call. -/
theorem scanDevice_fails_fast (device : BacnetDevice) (e : DriverError)
    (rest : List (Except DriverError (List ScannedObject))) :
    scanDevice device (.error e :: rest) = (.error e, 1) := rfl

/-- C3: an inbound message whose gateway segment differs from the local
gateway id is silently ignored — `onMessage` emits no write command,
whatever the remaining segments and the payload are. -/
theorem onMessage_ignores_other_gateway
    (localGatewayId topic : List Char) (payload : Option MsgPayload)
    (proto gid did objKey propIdSeg action : List Char)
    (hsplit : splitOnChar '/' topic = [proto, gid, did, objKey, propIdSeg, action])
    (hne : gid ≠ localGatewayId) :
    onMessage localGatewayId topic payload = none := by
  unfold onMessage
  rw [hsplit]
  by_cases hpa : proto = "bacnetwrite".data ∧ action = "set".data
  · simp [hpa, hne]
  · simp [hpa]

/-- C3 witness: the message on `bacnetwrite/other-gw/114/2_202/85/set` is
ignored when the local gateway id is `test-gw`. -/
theorem onMessage_ignores_other_gateway_witness :
    onMessage "test-gw".data "bacnetwrite/other-gw/114/2_202/85/set".data
      (some { value := Json.num 1, priority := none, bacnetApplicationTag := none }) = none :=
  onMessage_ignores_other_gateway "test-gw".data
    "bacnetwrite/other-gw/114/2_202/85/set".data
    (some { value := Json.num 1, priority := none, bacnetApplicationTag := none })
    "bacnetwrite".data "other-gw".data "114".data "2_202".data "85".data "set".data
    (by decide) (by decide)

/-- C5: loading a directory with one valid and one malformed configuration
file (neither deactivated) emits exactly one `configLoaded` event — the
valid document — and logs exactly one parse error, in either file order;
the parse failure never aborts loading of the other file. -/
theorem bacnetConfigLoad_isolates_parse_error
    (n1 n2 : String) (cfg : Json)
    (h1 : isDeactivatedName n1 = false) (h2 : isDeactivatedName n2 = false) :
    (emittedConfigs (bacnetConfigLoad [(n1, .parses cfg), (n2, .malformed)]) = [cfg] ∧
      parseErrorCount (bacnetConfigLoad [(n1, .parses cfg), (n2, .malformed)]) = 1) ∧
    (emittedConfigs (bacnetConfigLoad [(n1, .malformed), (n2, .parses cfg)]) = [cfg] ∧
      parseErrorCount (bacnetConfigLoad [(n1, .malformed), (n2, .parses cfg)]) = 1) := by
  simp [bacnetConfigLoad, emittedConfigs, parseErrorCount, h1, h2, List.filterMap, List.filter]

/-- C5 witness: the two files of the unit test — a valid `device.2.json`
and a malformed `device.invalid.json` — produce one `configLoaded` event
and one parse error, in either order. -/
theorem bacnetConfigLoad_isolates_parse_error_witness :
    (emittedConfigs (bacnetConfigLoad
        [("device.2.json", .parses (Json.obj [("device", Json.obj [("deviceId", Json.num 2)])])),
         ("device.invalid.json", .malformed)]) =
      [Json.obj [("device", Json.obj [("deviceId", Json.num 2)])]] ∧
      parseErrorCount (bacnetConfigLoad
        [("device.2.json", .parses (Json.obj [("device", Json.obj [("deviceId", Json.num 2)])])),
         ("device.invalid.json", .malformed)]) = 1) ∧
    (emittedConfigs (bacnetConfigLoad
        [("device.invalid.json", .malformed),
         ("device.2.json", .parses (Json.obj [("device", Json.obj [("deviceId", Json.num 2)])]))]) =
      [Json.obj [("device", Json.obj [("deviceId", Json.num 2)])]] ∧
      parseErrorCount (bacnetConfigLoad
        [("device.invalid.json", .malformed),
         ("device.2.json", .parses (Json.obj [("device", Json.obj [("deviceId", Json.num 2)])]))]) = 1) :=
  bacnetConfigLoad_isolates_parse_error "device.2.json" "device.invalid.json"
    (Json.obj [("device", Json.obj [("deviceId", Json.num 2)])]) (by decide) (by decide)

/-- C2: every inbound message on a topic of shape
`bacnetwrite/<gatewayId>/<deviceId>/<objectType>_<objectInstance>/<propertyId>/set`
whose gateway segment equals the local gateway id and whose payload parses
to JSON with a `value` is re-emitted as exactly one normalized write
command: the device id is the topic's device segment, the object type,
object instance and property id are the integers parsed from the topic,
and value and priority come from the payload. -/
theorem onMessage_emits_write_command
    (gid did otSeg oiSeg propIdSeg : List Char) (p : MsgPayload)
    (ot oi pid : Nat)
    (hgid : '/' ∉ gid) (hdid : '/' ∉ did)
    (hot : '/' ∉ otSeg) (hoi : '/' ∉ oiSeg) (hpid : '/' ∉ propIdSeg)
    (hot2 : '_' ∉ otSeg) (hoi2 : '_' ∉ oiSeg)
    (hpt : parseNatChars otSeg = some ot)
    (hpi : parseNatChars oiSeg = some oi)
    (hpp : parseNatChars propIdSeg = some pid) :
    onMessage gid (mkWriteTopic gid did (otSeg ++ '_' :: oiSeg) propIdSeg) (some p) =
      some { deviceId := did
             objectKey := otSeg ++ '_' :: oiSeg
             objectType := ot
             objectInstance := oi
             propertyId := pid
             value := p.value
             priority := p.priority
             bacnetApplicationTag := p.bacnetApplicationTag } := by
  have hobj : '/' ∉ otSeg ++ '_' :: oiSeg := by
    intro hmem
    rcases List.mem_append.mp hmem with hmem | hmem
    · exact hot hmem
    · rcases List.mem_cons.mp hmem with hmem | hmem
      · exact absurd hmem (by decide)
      · exact hoi hmem
  have hproto : '/' ∉ "bacnetwrite".data := by decide
  have hact : '/' ∉ "set".data := by decide
  have hsplit : splitOnChar '/' (mkWriteTopic gid did (otSeg ++ '_' :: oiSeg) propIdSeg) =
      ["bacnetwrite".data, gid, did, otSeg ++ '_' :: oiSeg, propIdSeg, "set".data] := by
    unfold mkWriteTopic
    rw [splitOnChar_append_sep '/' _ _ hproto,
        splitOnChar_append_sep '/' _ _ hgid,
        splitOnChar_append_sep '/' _ _ hdid,
        splitOnChar_append_sep '/' _ _ hobj,
        splitOnChar_append_sep '/' _ _ hpid,
        splitOnChar_no_sep '/' _ hact]
  have hsplit2 : splitOnChar '_' (otSeg ++ '_' :: oiSeg) = [otSeg, oiSeg] := by
    rw [splitOnChar_append_sep '_' _ _ hot2, splitOnChar_no_sep '_' _ hoi2]
  unfold onMessage
  rw [hsplit]
  simp only [hsplit2, hpt, hpi, hpp]
  simp

/-- C2 witness: the unit-test message — topic
`bacnetwrite/test-gw/114/1_0/85/set`, payload value `1` and priority `8` —
decodes to the write command with device id `114`, object type `1`,
object instance `0`, property id `85`, value `1` and priority `8`. -/
theorem onMessage_emits_write_command_witness :
    onMessage "test-gw".data "bacnetwrite/test-gw/114/1_0/85/set".data
      (some { value := Json.num 1, priority := some 8, bacnetApplicationTag := none }) =
      some { deviceId := "114".data
             objectKey := "1_0".data
             objectType := 1
             objectInstance := 0
             propertyId := 85
             value := Json.num 1
             priority := some 8
             bacnetApplicationTag := none } := by
  have htopic : mkWriteTopic "test-gw".data "114".data ("1".data ++ '_' :: "0".data) "85".data =
      "bacnetwrite/test-gw/114/1_0/85/set".data := by decide
  have hkey : "1".data ++ '_' :: "0".data = "1_0".data := by decide
  have h := onMessage_emits_write_command "test-gw".data "114".data "1".data "0".data "85".data
    { value := Json.num 1, priority := some 8, bacnetApplicationTag := none } 1 0 85
    (by decide) (by decide) (by decide) (by decide) (by decide) (by decide) (by decide)
    (by decide) (by decide) (by decide)
  rw [htopic, hkey] at h
  exact h

/-- C7: a malformed write command is rejected before any transport call —
whenever one of the required fields `deviceId`, `objectType`,
`objectInstance`, `propertyId`, `value` is missing, or a supplied numeric
`priority` lies outside 1–16, the handler answers with a validation error
(HTTP 400) and `bacnetClient.writeProperty` is never invoked. -/
theorem writeProperty_validation_rejects
    (configs : List (String × StoredDeviceConfig)) (b : WriteBody)
    (h : b.deviceId = none ∨ b.objectType = none ∨ b.objectInstance = none ∨
         b.propertyId = none ∨ b.value = none ∨
         ∃ pr : Int, b.priority = some (.num pr) ∧ (pr < 1 ∨ 16 < pr)) :
    ∃ msg, handleWriteProperty configs b = .badRequest msg := by
  obtain ⟨d, ot, oi, pid, v, pr, tag⟩ := b
  simp only at h
  rcases h with h | h | h | h | h | ⟨p, hp, hrange⟩
  · subst h; exact ⟨_, rfl⟩
  · subst h
    cases d <;> exact ⟨_, rfl⟩
  · subst h
    cases d <;> cases ot <;> exact ⟨_, rfl⟩
  · subst h
    cases d <;> cases ot <;> cases oi <;> exact ⟨_, rfl⟩
  · subst h
    cases d <;> cases ot <;> cases oi <;> cases pid <;> exact ⟨_, rfl⟩
  · subst hp
    cases d with
    | none => exact ⟨_, rfl⟩
    | some dv =>
        cases ot with
        | none => exact ⟨_, rfl⟩
        | some otv =>
            cases oi with
            | none => exact ⟨_, rfl⟩
            | some oiv =>
                cases pid with
                | none => exact ⟨_, rfl⟩
                | some pidv =>
                    cases v with
                    | none => exact ⟨_, rfl⟩
                    | some vv =>
                        by_cases hv : isNonNullObject vv = true
                        · exact ⟨"value must be a primitive type (string/number/boolean).",
                            by simp [handleWriteProperty, hv]⟩
                        · have hfail : priorityCheckFails (some (JsVal.num p)) = true := by
                            simp [priorityCheckFails, jsParseInt, jsLtNum, jsGtNum, jsToNumber]
                            rcases hrange with hr | hr
                            · exact Or.inl hr
                            · exact Or.inr hr
                          refine ⟨"priority must be a number between 1 and 16.", ?_⟩
                          simp only [handleWriteProperty]
                          rw [if_neg (by simp [hv]), if_pos (by simp [hfail])]

/-- C7 witness: a write request with all required fields present but
priority 17 is answered with a validation error and never reaches the
transport. -/
theorem writeProperty_validation_rejects_witness :
    ∃ msg, handleWriteProperty []
      { deviceId := some (.str "114")
        objectType := some (.num 1)
        objectInstance := some (.num 0)
        propertyId := some (.num 85)
        value := some (.num 1)
        priority := some (.num 17)
        bacnetApplicationTag := none } = .badRequest msg :=
  writeProperty_validation_rejects []
    { deviceId := some (.str "114")
      objectType := some (.num 1)
      objectInstance := some (.num 0)
      propertyId := some (.num 85)
      value := some (.num 1)
      priority := some (.num 17)
      bacnetApplicationTag := none }
    (Or.inr (Or.inr (Or.inr (Or.inr (Or.inr ⟨17, rfl, Or.inr (by decide)⟩)))))

/-- C9: a write request whose fields pass validation but whose device id
has no entry in the device-configuration registry is answered NotFound
(HTTP 404) with a message naming the device id, and no transport write is
attempted. -/
theorem writeProperty_unconfigured_not_found
    (configs : List (String × StoredDeviceConfig)) (b : WriteBody)
    (d ot oi pid v : JsVal) (key : String)
    (hd : b.deviceId = some d) (hot : b.objectType = some ot)
    (hoi : b.objectInstance = some oi) (hpid : b.propertyId = some pid)
    (hv : b.value = some v)
    (hobj : isNonNullObject v = false)
    (hpri : priorityCheckFails b.priority = false)
    (htag : appTagCheckFails b.bacnetApplicationTag = false)
    (hkey : jsToStringOpt d = some key)
    (hlook : lookupDeviceConfig configs key = none) :
    handleWriteProperty configs b =
      .notFound ("Device configuration not found for deviceId: " ++ jsTemplate d) := by
  obtain ⟨bd, bot, boi, bpid, bv, bpr, btag⟩ := b
  simp only at hd hot hoi hpid hv hpri htag
  subst hd; subst hot; subst hoi; subst hpid; subst hv
  simp only [handleWriteProperty]
  rw [if_neg (by simp [hobj]), if_neg (by simp [hpri]), if_neg (by simp [htag]), hkey]
  simp [hlook]

/-- C9 witness: a fully-formed write command for device id 114 against an
empty registry is answered with the NotFound message naming `114`, and no
transport call is made. -/
theorem writeProperty_unconfigured_not_found_witness :
    handleWriteProperty []
      { deviceId := some (.num 114)
        objectType := some (.num 1)
        objectInstance := some (.num 0)
        propertyId := some (.num 85)
        value := some (.num 1)
        priority := some (.num 8)
        bacnetApplicationTag := none } =
      .notFound ("Device configuration not found for deviceId: " ++ jsTemplate (.num 114)) :=
  writeProperty_unconfigured_not_found []
    { deviceId := some (.num 114)
      objectType := some (.num 1)
      objectInstance := some (.num 0)
      propertyId := some (.num 85)
      value := some (.num 1)
      priority := some (.num 8)
      bacnetApplicationTag := none }
    (.num 114) (.num 1) (.num 0) (.num 85) (.num 1) "114"
    rfl rfl rfl rfl rfl (by decide) (by decide) (by decide) (by decide) rfl

/-- Unfolding of a successful save: a non-null document with a non-null
`device` section is written under its deviceId-derived filename with
pretty-printed content. -/
theorem bacnetConfigSave_eq (fs : FileSystem) (cfg dev : Json)
    (hc : cfg ≠ .null) (hdev : jsProp cfg "device" = some dev) (hd : dev ≠ .null) :
    bacnetConfigSave fs cfg =
      some (setFile fs
        (configFileName
          (match jsProp dev "deviceId" with
           | none => "undefined"
           | some v => jsonTemplate v))
        (Json.renderPretty 0 cfg)) := by
  cases cfg with
  | null => exact absurd rfl hc
  | bool b => simp [jsProp] at hdev
  | num n => simp [jsProp] at hdev
  | str s => simp [jsProp] at hdev
  | arr xs => simp [jsProp] at hdev
  | obj fields =>
      simp only [bacnetConfigSave]
      rw [hdev]
      cases dev with
      | null => exact absurd rfl hd
      | bool b => rfl
      | num n => rfl
      | str s => rfl
      | arr xs => rfl
      | obj f2 => rfl

/-- C8: `save` writes the descriptor under the deterministic filename
`device.<deviceId>.json` with pretty-printed JSON content; saving twice
with the same device id leaves exactly one file for that id, holding the
content of the last save; `delete` removes exactly that file and resolves,
leaving every other file untouched, while deleting a device id with no
file fails with NotFound. -/
theorem bacnetConfig_save_delete_behaviour
    (fs : FileSystem) (cfg cfg' dev dev' : Json) (idStr : String) (did : JsVal)
    (hc : cfg ≠ .null) (hdev : jsProp cfg "device" = some dev) (hd : dev ≠ .null)
    (hc' : cfg' ≠ .null) (hdev' : jsProp cfg' "device" = some dev') (hd' : dev' ≠ .null)
    (hid : (match jsProp dev "deviceId" with
            | none => "undefined"
            | some v => jsonTemplate v) = idStr)
    (hid' : (match jsProp dev' "deviceId" with
             | none => "undefined"
             | some v => jsonTemplate v) = idStr)
    (hdid : jsTemplate did = idStr) :
    ∃ fs1 fs2,
      bacnetConfigSave fs cfg = some fs1 ∧
      lookupFile fs1 (configFileName idStr) = some (Json.renderPretty 0 cfg) ∧
      bacnetConfigSave fs1 cfg' = some fs2 ∧
      lookupFile fs2 (configFileName idStr) = some (Json.renderPretty 0 cfg') ∧
      fileCount fs2 (configFileName idStr) = 1 ∧
      (∃ fs3, bacnetConfigDelete fs2 did = .ok fs3 ∧
        lookupFile fs3 (configFileName idStr) = none ∧
        ∀ n, n ≠ configFileName idStr → lookupFile fs3 n = lookupFile fs2 n) ∧
      (lookupFile fs (configFileName idStr) = none →
        bacnetConfigDelete fs did = .error .notFound) := by
  have hsave1 := bacnetConfigSave_eq fs cfg dev hc hdev hd
  rw [hid] at hsave1
  set fs1 := setFile fs (configFileName idStr) (Json.renderPretty 0 cfg) with hfs1
  have hsave2 := bacnetConfigSave_eq fs1 cfg' dev' hc' hdev' hd'
  rw [hid'] at hsave2
  set fs2 := setFile fs1 (configFileName idStr) (Json.renderPretty 0 cfg') with hfs2
  refine ⟨fs1, fs2, hsave1, ?_, hsave2, ?_, ?_, ?_, ?_⟩
  · exact lookupFile_setFile_self fs (configFileName idStr) (Json.renderPretty 0 cfg)
  · exact lookupFile_setFile_self fs1 (configFileName idStr) (Json.renderPretty 0 cfg')
  · exact fileCount_setFile_self fs1 (configFileName idStr) (Json.renderPretty 0 cfg')
  · refine ⟨removeFile fs2 (configFileName idStr), ?_, ?_, ?_⟩
    · have hsome : (lookupFile fs2 (configFileName idStr)).isSome = true := by
        rw [hfs2, lookupFile_setFile_self]
        rfl
      simp only [bacnetConfigDelete, hdid]
      rw [if_pos hsome]
    · exact lookupFile_removeFile_self fs2 (configFileName idStr)
    · intro n hn
      exact lookupFile_removeFile_ne fs2 n (configFileName idStr) hn
  · intro hnone
    have hfalse : (lookupFile fs (configFileName idStr)).isSome = false := by
      rw [hnone]
      rfl
    simp only [bacnetConfigDelete, hdid]
    rw [if_neg (by simp [hfalse])]

/-- C8 witness: saving the document with device id 2 twice into an empty
directory leaves one file `device.2.json` with the second content, and
deleting device id 2 removes it; deleting from the empty directory fails
with NotFound. -/
theorem bacnetConfig_save_delete_behaviour_witness :
    ∃ fs1 fs2,
      bacnetConfigSave []
          (Json.obj [("device", Json.obj [("deviceId", Json.num 2)])]) = some fs1 ∧
      lookupFile fs1 (configFileName "2") =
        some (Json.renderPretty 0 (Json.obj [("device", Json.obj [("deviceId", Json.num 2)])])) ∧
      bacnetConfigSave fs1
          (Json.obj [("device", Json.obj [("deviceId", Json.num 2), ("address", Json.str "10.0.0.1")])]) = some fs2 ∧
      lookupFile fs2 (configFileName "2") =
        some (Json.renderPretty 0
          (Json.obj [("device", Json.obj [("deviceId", Json.num 2), ("address", Json.str "10.0.0.1")])])) ∧
      fileCount fs2 (configFileName "2") = 1 ∧
      (∃ fs3, bacnetConfigDelete fs2 (.num 2) = .ok fs3 ∧
        lookupFile fs3 (configFileName "2") = none ∧
        ∀ n, n ≠ configFileName "2" → lookupFile fs3 n = lookupFile fs2 n) ∧
      (lookupFile ([] : FileSystem) (configFileName "2") = none →
        bacnetConfigDelete [] (.num 2) = .error .notFound) :=
  bacnetConfig_save_delete_behaviour []
    (Json.obj [("device", Json.obj [("deviceId", Json.num 2)])])
    (Json.obj [("device", Json.obj [("deviceId", Json.num 2), ("address", Json.str "10.0.0.1")])])
    (Json.obj [("deviceId", Json.num 2)])
    (Json.obj [("deviceId", Json.num 2), ("address", Json.str "10.0.0.1")])
    "2" (.num 2)
    (by intro h; cases h) rfl (by intro h; cases h)
    (by intro h; cases h) rfl (by intro h; cases h)
    rfl rfl rfl

/-- A violated device rule always contributes its message to the collected
validation errors. -/
theorem deviceRuleMsg_mem (c : Option ConfigureBody) (h : deviceRuleFails c = true) :
    deviceRuleMsg ∈ configureValidationErrors c := by
  unfold configureValidationErrors
  rw [if_pos h]
  simp

/-- A violated schedule rule always contributes its message to the collected
validation errors. -/
theorem scheduleRuleMsg_mem (c : Option ConfigureBody) (h : scheduleRuleFails c = true) :
    scheduleRuleMsg ∈ configureValidationErrors c := by
  unfold configureValidationErrors
  rw [if_pos h]
  simp

/-- A violated objects rule always contributes its message to the collected
validation errors. -/
theorem objectsRuleMsg_mem (c : Option ConfigureBody) (h : objectsRuleFails c = true) :
    objectsRuleMsg ∈ configureValidationErrors c := by
  unfold configureValidationErrors
  cases c with
  | none => simp
  | some cb =>
      obtain ⟨bdev, bpol, bobjs⟩ := cb
      cases bobjs with
      | none => simp
      | some of =>
          cases of with
          | nonArray => simp
          | arr entries =>
              have hemp : entries.isEmpty = true := by
                simpa [objectsRuleFails] using h
              simp [hemp]

/-- A violating entry of the objects array always contributes its indexed
message to the collected validation errors. -/
theorem entryRuleMsg_mem (c : Option ConfigureBody) (i : Nat) (e : Option ObjEntryFields)
    (hat : objectEntryAt c i = some e) (hfail : entryRuleFails e = true) :
    entryRuleMsg i ∈ configureValidationErrors c := by
  cases c with
  | none => simp [objectEntryAt] at hat
  | some cb =>
      obtain ⟨bdev, bpol, bobjs⟩ := cb
      cases bobjs with
      | none => simp [objectEntryAt] at hat
      | some of =>
          cases of with
          | nonArray => simp [objectEntryAt] at hat
          | arr entries =>
              simp only [objectEntryAt] at hat
              have hne : entries.isEmpty = false := by
                cases entries with
                | nil => simp [List.get?] at hat
                | cons a t => rfl
              have hmem := mem_enum_of_get? entries i e hat
              unfold configureValidationErrors
              apply List.mem_append_right
              rw [show (match (some ⟨bdev, bpol, some (.arr entries)⟩ : Option ConfigureBody) with
                    | none => [objectsRuleMsg]
                    | some cb =>
                      match cb.objects with
                      | some (ObjectsField.arr entries) =>
                        if entries.isEmpty = true then [objectsRuleMsg]
                        else List.filterMap
                          (fun p => if entryRuleFails p.2 = true then some (entryRuleMsg p.1) else none)
                          entries.enum
                      | _ => [objectsRuleMsg]) =
                  (if entries.isEmpty = true then [objectsRuleMsg]
                   else List.filterMap
                     (fun p => if entryRuleFails p.2 = true then some (entryRuleMsg p.1) else none)
                     entries.enum) from rfl]
              rw [if_neg (by simp [hne])]
              apply List.mem_filterMap.mpr
              exact ⟨(i, e), hmem, by simp [hfail]⟩

/-- C10: the configure-polling endpoint validates atomically before
mutating any state — whenever the device rule, the schedule rule, the
objects rule or any per-entry rule is violated, the handler answers 400
with the collected error list, that list is non-empty and contains the
message of every violated rule, and neither `saveConfig` nor `startPolling`
is invoked (the outcome is not `applied`). -/
theorem configurePolling_validation_atomic (c : Option ConfigureBody)
    (h : deviceRuleFails c = true ∨ scheduleRuleFails c = true ∨ objectsRuleFails c = true ∨
         ∃ i e, objectEntryAt c i = some e ∧ entryRuleFails e = true) :
    ∃ errs, handleConfigurePolling c = .badRequest errs ∧ errs ≠ [] ∧
      (deviceRuleFails c = true → deviceRuleMsg ∈ errs) ∧
      (scheduleRuleFails c = true → scheduleRuleMsg ∈ errs) ∧
      (objectsRuleFails c = true → objectsRuleMsg ∈ errs) ∧
      (∀ i e, objectEntryAt c i = some e → entryRuleFails e = true →
        entryRuleMsg i ∈ errs) := by
  have hnil : configureValidationErrors c ≠ [] := by
    rcases h with h | h | h | ⟨i, e, hat, hfail⟩
    · exact List.ne_nil_of_mem (deviceRuleMsg_mem c h)
    · exact List.ne_nil_of_mem (scheduleRuleMsg_mem c h)
    · exact List.ne_nil_of_mem (objectsRuleMsg_mem c h)
    · exact List.ne_nil_of_mem (entryRuleMsg_mem c i e hat hfail)
  refine ⟨configureValidationErrors c, ?_, hnil, fun hd => deviceRuleMsg_mem c hd,
    fun hs => scheduleRuleMsg_mem c hs, fun ho => objectsRuleMsg_mem c ho,
    fun i e hat hfail => entryRuleMsg_mem c i e hat hfail⟩
  have hemp : (configureValidationErrors c).isEmpty = false := by
    cases hval : configureValidationErrors c with
    | nil => exact absurd hval hnil
    | cons a t => rfl
  simp only [handleConfigurePolling]
  rw [if_neg (by simp [hemp])]

/-- C10 witness: a body missing its `device` section (with a schedule
present and one entry whose `objectId.instance` is missing) is answered
400: the error list is non-empty, contains the device-rule message and the
indexed entry message, and the configuration is not applied. -/
theorem configurePolling_validation_atomic_witness :
    ∃ errs, handleConfigurePolling (some
        { device := none
          polling := some { schedule := some (.str "*/15 * * * * *") }
          objects := some (.arr [some { objectId := some { type := some (.num 0), inst := none } }]) }) =
        .badRequest errs ∧ errs ≠ [] ∧
      (deviceRuleFails (some
        { device := none
          polling := some { schedule := some (.str "*/15 * * * * *") }
          objects := some (.arr [some { objectId := some { type := some (.num 0), inst := none } }]) }) = true →
        deviceRuleMsg ∈ errs) ∧
      (scheduleRuleFails (some
        { device := none
          polling := some { schedule := some (.str "*/15 * * * * *") }
          objects := some (.arr [some { objectId := some { type := some (.num 0), inst := none } }]) }) = true →
        scheduleRuleMsg ∈ errs) ∧
      (objectsRuleFails (some
        { device := none
          polling := some { schedule := some (.str "*/15 * * * * *") }
          objects := some (.arr [some { objectId := some { type := some (.num 0), inst := none } }]) }) = true →
        objectsRuleMsg ∈ errs) ∧
      (∀ i e, objectEntryAt (some
        { device := none
          polling := some { schedule := some (.str "*/15 * * * * *") }
          objects := some (.arr [some { objectId := some { type := some (.num 0), inst := none } }]) }) i = some e →
        entryRuleFails e = true → entryRuleMsg i ∈ errs) :=
  configurePolling_validation_atomic (some
    { device := none
      polling := some { schedule := some (.str "*/15 * * * * *") }
      objects := some (.arr [some { objectId := some { type := some (.num 0), inst := none } }]) })
    (Or.inl (by decide))
